import Mathlib

/-!
Verification of the pynusmv embedded-language frontend (`pynusmv/model.py` and
`pynusmv/parser.py`): the expression AST with structural equality (`equals`) and
precedence-aware rendering (`__str__` / `_enclose`), the pyparsing grammar for
expressions, types and sections, `parseAllString`, the section-merge logic of
`_create_module` / `update_body`, and the `Declaration.name` property.

The grammar is embedded as fueled recursive-descent parsers mirroring the
pyparsing combinator structure: terminals skip leading whitespace, `|` is
first-match choice, `^` is longest-match choice (ties go to the first
alternative), `ZeroOrMore` iterates greedily and a failed iteration consumes
nothing, and parse actions are translated verbatim (including their fold
direction).
-/

namespace PyNuSMV

/-- pyparsing default whitespace characters (space, tab, newline). -/
def wsChar (c : Char) : Bool :=
  c == ' ' || c == '\t' || c == '\n'

/-- Skip leading whitespace, as every pyparsing terminal does before matching. -/
def skipWs (cs : List Char) : List Char :=
  cs.dropWhile wsChar

/-- A parser over a character stream: returns the parsed value and the rest. -/
abbrev P (α : Type) : Type := List Char → Option (α × List Char)

/-- Match the exact characters of `pre` at the head of `cs`, returning the rest. -/
def litMatch : List Char → List Char → Option (List Char)
  | [], cs => some cs
  | _ :: _, [] => none
  | p :: ps, c :: cs => if p == c then litMatch ps cs else none

/-- pyparsing `Literal(s)`: skip whitespace, then match `s` exactly (no word
boundary check). -/
def pLitR (s : String) (cs : List Char) : Option (String × List Char) :=
  match litMatch s.data (skipWs cs) with
  | some rest => some (s, rest)
  | none => none

/-- pyparsing `Word(initChars, bodyChars)`: skip whitespace, one character from
`initC` followed by the maximal run of characters from `bodyC`. -/
def pWordOf (initC bodyC : Char → Bool) (cs : List Char) :
    Option (String × List Char) :=
  match skipWs cs with
  | [] => none
  | c :: rest =>
      if initC c then
        some (String.mk (c :: rest.takeWhile bodyC), rest.dropWhile bodyC)
      else none

/-- First alternative of a list of literals that matches (ordered `oneOf`). -/
def pLits : List String → List Char → Option (String × List Char)
  | [], _ => none
  | s :: ss, cs =>
      match pLitR s cs with
      | some r => some r
      | none => pLits ss cs

def isAlphaU (c : Char) : Bool := c.isAlpha || c == '_'

/-- Identifier body characters: `alphanums + "_$#-"` from the source grammar. -/
def isIdentBody (c : Char) : Bool :=
  c.isAlphanum || c == '_' || c == '$' || c == '#' || c == '-'

def isHexDigit (c : Char) : Bool :=
  c.isDigit || (('a' ≤ c) && (c ≤ 'f')) || (('A' ≤ c) && (c ≤ 'F'))

def isWordBase (c : Char) : Bool :=
  c == 'b' || c == 'B' || c == 'o' || c == 'O' ||
  c == 'd' || c == 'D' || c == 'h' || c == 'H'

def digitsToNat (ds : List Char) : Nat :=
  ds.foldl (fun acc c => acc * 10 + (c.toNat - '0'.toNat)) 0

-- ---------------------------------------------------------------------------
-- The expression AST (`model.py`): every node carries the optional verbatim
-- source string (`Element.source`).  `strv` and `intv` model raw Python `str`
-- and `int` values that the grammar places inside the tree (e.g. the tokens of
-- a complex identifier, and integer constants, which `_integer_number` turns
-- into plain `int`s with no `source` attribute).
-- ---------------------------------------------------------------------------

mutual

inductive Expr where
  | strv (s : String)
  | intv (n : Int)
  | identifier (src : Option String) (name : String)
  | complexId (src : Option String) (body : ExprList)
  | boolean (src : Option String) (value : String)
  | wordC (src : Option String) (value : String)
  | rangeC (src : Option String) (start stop : Expr)
  | conversion (src : Option String) (target : String) (value : Expr)
  | wordFunction (src : Option String) (fn : String) (value size : Expr)
  | countE (src : Option String) (value : Expr)
  | nextE (src : Option String) (value : Expr)
  | initE (src : Option String) (value : Expr)
  | caseE (src : Option String) (values : PairList)
  | subscript (src : Option String) (index : Expr)
  | bitSelection (src : Option String) (start stop : Expr)
  | arrayAccess (src : Option String) (array : Expr) (accesses : ExprList)
  | setE (src : Option String) (elements : ExprList)
  | notE (src : Option String) (value : Expr)
  | concat (src : Option String) (left right : Expr)
  | minusE (src : Option String) (value : Expr)
  | mult (src : Option String) (left right : Expr)
  | div (src : Option String) (left right : Expr)
  | modE (src : Option String) (left right : Expr)
  | add (src : Option String) (left right : Expr)
  | sub (src : Option String) (left right : Expr)
  | shiftL (src : Option String) (left right : Expr)
  | shiftR (src : Option String) (left right : Expr)
  | unionE (src : Option String) (left right : Expr)
  | inE (src : Option String) (left right : Expr)
  | eq (src : Option String) (left right : Expr)
  | neq (src : Option String) (left right : Expr)
  | lt (src : Option String) (left right : Expr)
  | gt (src : Option String) (left right : Expr)
  | le (src : Option String) (left right : Expr)
  | ge (src : Option String) (left right : Expr)
  | andE (src : Option String) (left right : Expr)
  | orE (src : Option String) (left right : Expr)
  | xorE (src : Option String) (left right : Expr)
  | xnorE (src : Option String) (left right : Expr)
  | ite (src : Option String) (condition left right : Expr)
  | iffE (src : Option String) (left right : Expr)
  | implies (src : Option String) (left right : Expr)

inductive ExprList where
  | nil
  | cons (head : Expr) (tail : ExprList)

inductive PairList where
  | nil
  | cons (cond body : Expr) (tail : PairList)

end

/-- Class-level `precedence` attribute of each node (`Expression.precedence = 0`
by default, overridden by each `Operator` subclass). -/
def precedence : Expr → Nat
  | .notE _ _ => 1
  | .concat _ _ _ => 2
  | .minusE _ _ => 3
  | .mult _ _ _ => 4
  | .div _ _ _ => 4
  | .modE _ _ _ => 4
  | .add _ _ _ => 5
  | .sub _ _ _ => 5
  | .shiftL _ _ _ => 6
  | .shiftR _ _ _ => 6
  | .unionE _ _ _ => 7
  | .inE _ _ _ => 8
  | .eq _ _ _ => 9
  | .neq _ _ _ => 9
  | .lt _ _ _ => 9
  | .gt _ _ _ => 9
  | .le _ _ _ => 9
  | .ge _ _ _ => 9
  | .andE _ _ _ => 10
  | .orE _ _ _ => 11
  | .xorE _ _ _ => 11
  | .xnorE _ _ _ => 11
  | .ite _ _ _ _ => 12
  | .iffE _ _ _ => 13
  | .implies _ _ _ => 14
  | _ => 0

/-- Whether the node is an instance of the `Operator` class. -/
def isOperator : Expr → Bool
  | .notE _ _ => true
  | .concat _ _ _ => true
  | .minusE _ _ => true
  | .mult _ _ _ => true
  | .div _ _ _ => true
  | .modE _ _ _ => true
  | .add _ _ _ => true
  | .sub _ _ _ => true
  | .shiftL _ _ _ => true
  | .shiftR _ _ _ => true
  | .unionE _ _ _ => true
  | .inE _ _ _ => true
  | .eq _ _ _ => true
  | .neq _ _ _ => true
  | .lt _ _ _ => true
  | .gt _ _ _ => true
  | .le _ _ _ => true
  | .ge _ _ _ => true
  | .andE _ _ _ => true
  | .orE _ _ _ => true
  | .xorE _ _ _ => true
  | .xnorE _ _ _ => true
  | .ite _ _ _ _ => true
  | .iffE _ _ _ => true
  | .implies _ _ _ => true
  | _ => false

/-- `if self.source: return self.source` — Python truthiness: an absent or
empty source falls through to the canonical form. -/
def srcOr (src : Option String) (canonical : String) : String :=
  match src with
  | some s => if s = "" then canonical else s
  | none => canonical

/-- `Operator._enclose` applied to an already-rendered operand: wrap in
parentheses when the operand is an `Operator` of numerically greater
(`looser`) precedence than the parent. -/
def encWrap (parentPrec operandPrec : Nat) (operandIsOp : Bool) (s : String) :
    String :=
  if operandIsOp && parentPrec < operandPrec then "(" ++ s ++ ")" else s

mutual

/-- `__str__` of each node class, translated case by case from `model.py`.
Every class first returns the cached `source` when it is truthy — except
`Not.__str__`, whose `if self.source: self.source` line lacks the `return`
and always falls through to the canonical form. -/
def render : Expr → String
  | .strv s => s
  | .intv n => toString n
  | .identifier src name => srcOr src name
  | .complexId src body => srcOr src (String.join (renderList body))
  | .boolean src v => srcOr src v
  | .wordC src v => srcOr src v
  | .rangeC src a b => srcOr src (render a ++ ".." ++ render b)
  | .conversion src t v => srcOr src (t ++ "(" ++ render v ++ ")")
  | .wordFunction src f v sz =>
      srcOr src (f ++ "(" ++ render v ++ ", " ++ render sz ++ ")")
  | .countE src v => srcOr src ("count(" ++ render v ++ ")")
  | .nextE src v => srcOr src ("next(" ++ render v ++ ")")
  | .initE src v => srcOr src ("init(" ++ render v ++ ")")
  | .caseE src values =>
      srcOr src ("case " ++ String.intercalate "\n" (renderPairs values)
                 ++ " esac")
  | .subscript src i => srcOr src ("[" ++ render i ++ "]")
  | .bitSelection src a b =>
      srcOr src ("[" ++ render a ++ ":" ++ render b ++ "]")
  | .arrayAccess src a accs =>
      srcOr src (render a ++ String.join (renderList accs))
  | .setE src els =>
      srcOr src ("\x7b" ++ String.intercalate ", " (renderList els) ++ "\x7d")
  | .notE _ v =>
      "! " ++ encWrap 1 (precedence v) (isOperator v) (render v)
  | .minusE src v =>
      srcOr src ("- " ++ encWrap 3 (precedence v) (isOperator v) (render v))
  | .concat src l r =>
      srcOr src (encWrap 2 (precedence l) (isOperator l) (render l) ++ "::"
                 ++ encWrap 2 (precedence r) (isOperator r) (render r))
  | .mult src l r =>
      srcOr src (encWrap 4 (precedence l) (isOperator l) (render l) ++ " * "
                 ++ encWrap 4 (precedence r) (isOperator r) (render r))
  | .div src l r =>
      srcOr src (encWrap 4 (precedence l) (isOperator l) (render l) ++ " / "
                 ++ encWrap 4 (precedence r) (isOperator r) (render r))
  | .modE src l r =>
      srcOr src (encWrap 4 (precedence l) (isOperator l) (render l) ++ " mod "
                 ++ encWrap 4 (precedence r) (isOperator r) (render r))
  | .add src l r =>
      srcOr src (encWrap 5 (precedence l) (isOperator l) (render l) ++ " + "
                 ++ encWrap 5 (precedence r) (isOperator r) (render r))
  | .sub src l r =>
      srcOr src (encWrap 5 (precedence l) (isOperator l) (render l) ++ " - "
                 ++ encWrap 5 (precedence r) (isOperator r) (render r))
  | .shiftL src l r =>
      srcOr src (encWrap 6 (precedence l) (isOperator l) (render l) ++ " << "
                 ++ encWrap 6 (precedence r) (isOperator r) (render r))
  | .shiftR src l r =>
      srcOr src (encWrap 6 (precedence l) (isOperator l) (render l) ++ " >> "
                 ++ encWrap 6 (precedence r) (isOperator r) (render r))
  | .unionE src l r =>
      srcOr src (encWrap 7 (precedence l) (isOperator l) (render l)
                 ++ " union "
                 ++ encWrap 7 (precedence r) (isOperator r) (render r))
  | .inE src l r =>
      srcOr src (encWrap 8 (precedence l) (isOperator l) (render l) ++ " in "
                 ++ encWrap 8 (precedence r) (isOperator r) (render r))
  | .eq src l r =>
      srcOr src (encWrap 9 (precedence l) (isOperator l) (render l) ++ " = "
                 ++ encWrap 9 (precedence r) (isOperator r) (render r))
  | .neq src l r =>
      srcOr src (encWrap 9 (precedence l) (isOperator l) (render l) ++ " != "
                 ++ encWrap 9 (precedence r) (isOperator r) (render r))
  | .lt src l r =>
      srcOr src (encWrap 9 (precedence l) (isOperator l) (render l) ++ " < "
                 ++ encWrap 9 (precedence r) (isOperator r) (render r))
  | .gt src l r =>
      srcOr src (encWrap 9 (precedence l) (isOperator l) (render l) ++ " > "
                 ++ encWrap 9 (precedence r) (isOperator r) (render r))
  | .le src l r =>
      srcOr src (encWrap 9 (precedence l) (isOperator l) (render l) ++ " <= "
                 ++ encWrap 9 (precedence r) (isOperator r) (render r))
  | .ge src l r =>
      srcOr src (encWrap 9 (precedence l) (isOperator l) (render l) ++ " >= "
                 ++ encWrap 9 (precedence r) (isOperator r) (render r))
  | .andE src l r =>
      srcOr src (encWrap 10 (precedence l) (isOperator l) (render l) ++ " & "
                 ++ encWrap 10 (precedence r) (isOperator r) (render r))
  | .orE src l r =>
      srcOr src (encWrap 11 (precedence l) (isOperator l) (render l) ++ " | "
                 ++ encWrap 11 (precedence r) (isOperator r) (render r))
  | .xorE src l r =>
      srcOr src (encWrap 11 (precedence l) (isOperator l) (render l)
                 ++ " xor "
                 ++ encWrap 11 (precedence r) (isOperator r) (render r))
  | .xnorE src l r =>
      srcOr src (encWrap 11 (precedence l) (isOperator l) (render l)
                 ++ " xnor "
                 ++ encWrap 11 (precedence r) (isOperator r) (render r))
  | .ite src c l r =>
      srcOr src (encWrap 12 (precedence c) (isOperator c) (render c) ++ " ? "
                 ++ encWrap 12 (precedence l) (isOperator l) (render l)
                 ++ " : "
                 ++ encWrap 12 (precedence r) (isOperator r) (render r))
  | .iffE src l r =>
      srcOr src (encWrap 13 (precedence l) (isOperator l) (render l)
                 ++ " <-> "
                 ++ encWrap 13 (precedence r) (isOperator r) (render r))
  | .implies src l r =>
      srcOr src (encWrap 14 (precedence l) (isOperator l) (render l)
                 ++ " -> "
                 ++ encWrap 14 (precedence r) (isOperator r) (render r))

def renderList : ExprList → List String
  | .nil => []
  | .cons h t => render h :: renderList t

def renderPairs : PairList → List String
  | .nil => []
  | .cons c b t => (render c ++ ": " ++ render b ++ ";") :: renderPairs t

end

/-- `Operator._enclose`: the rendered operand, parenthesized when the operand
is an operator of strictly greater precedence rank than `parent`. -/
def encloseStr (parent operand : Expr) : String :=
  encWrap (precedence parent) (precedence operand) (isOperator operand)
    (render operand)

mutual

/-- Number of nodes of an expression, used to compute a sufficient recursion
budget for `pyEq` (the summed size of both arguments strictly decreases along
every recursive call of the fueled equality functions below). -/
def esize : Expr → Nat
  | .strv _ => 1
  | .intv _ => 1
  | .identifier _ _ => 1
  | .complexId _ body => 1 + elsize body
  | .boolean _ _ => 1
  | .wordC _ _ => 1
  | .rangeC _ a b => 1 + esize a + esize b
  | .conversion _ _ v => 1 + esize v
  | .wordFunction _ _ v s => 1 + esize v + esize s
  | .countE _ v => 1 + esize v
  | .nextE _ v => 1 + esize v
  | .initE _ v => 1 + esize v
  | .caseE _ values => 1 + plsize values
  | .subscript _ i => 1 + esize i
  | .bitSelection _ a b => 1 + esize a + esize b
  | .arrayAccess _ a accs => 1 + esize a + elsize accs
  | .setE _ els => 1 + elsize els
  | .notE _ v => 1 + esize v
  | .concat _ l r => 1 + esize l + esize r
  | .minusE _ v => 1 + esize v
  | .mult _ l r => 1 + esize l + esize r
  | .div _ l r => 1 + esize l + esize r
  | .modE _ l r => 1 + esize l + esize r
  | .add _ l r => 1 + esize l + esize r
  | .sub _ l r => 1 + esize l + esize r
  | .shiftL _ l r => 1 + esize l + esize r
  | .shiftR _ l r => 1 + esize l + esize r
  | .unionE _ l r => 1 + esize l + esize r
  | .inE _ l r => 1 + esize l + esize r
  | .eq _ l r => 1 + esize l + esize r
  | .neq _ l r => 1 + esize l + esize r
  | .lt _ l r => 1 + esize l + esize r
  | .gt _ l r => 1 + esize l + esize r
  | .le _ l r => 1 + esize l + esize r
  | .ge _ l r => 1 + esize l + esize r
  | .andE _ l r => 1 + esize l + esize r
  | .orE _ l r => 1 + esize l + esize r
  | .xorE _ l r => 1 + esize l + esize r
  | .xnorE _ l r => 1 + esize l + esize r
  | .ite _ c l r => 1 + esize c + esize l + esize r
  | .iffE _ l r => 1 + esize l + esize r
  | .implies _ l r => 1 + esize l + esize r

def elsize : ExprList → Nat
  | .nil => 1
  | .cons h t => 1 + esize h + elsize t

def plsize : PairList → Nat
  | .nil => 1
  | .cons c b t => 1 + esize c + esize b + plsize t

end

mutual

/-- The `equals` structural-equality methods of `model.py`, translated class by
class.  Commutative classes (`Mult`, `Add`, `Union`, `Eq`, `And`, `Or`, `Xor`,
`Xnor`, and `Iff`) accept either operand correspondence; `Neq.equals` is
translated exactly as written (the negation of the `Eq` formula).  Raw Python
values (`strv`, `intv`) compare by value, and any two nodes of different
classes compare unequal (`type(self) is type(other)` guard).

`ComplexIdentifier.equals` is special: it evaluates `self.body ==
other.body` where both bodies are pyparsing `ParseResults` objects, a class
that defines no `__eq__`, so the comparison falls back to object identity.
Two parse events always allocate distinct `ParseResults`, and every
comparison performed in this development is between nodes of distinct parse
events (or distinct constructions), so the `complexId` case is `false` —
the body identity check never succeeds across objects.  (Only comparing one
Python node object against itself would yield `True`; no claim concerns
that case, and a pure term model cannot distinguish it.)  In contrast,
`ArrayAccess.equals` compares `self.accesses`, a plain list obtained from a
`ParseResults` slice, so it genuinely compares element-wise.

The recursion is fueled so that the `frozenset` membership loop of
`Set.equals` terminates structurally; `pyEq` below supplies a fuel that
always suffices. -/
def pyEqF : Nat → Expr → Expr → Bool
  | 0, _, _ => false
  | n + 1, a, b =>
    match a, b with
    | .strv x, .strv y => x == y
    | .intv x, .intv y => x == y
    | .identifier _ x, .identifier _ y => x == y
    | .complexId _ _, .complexId _ _ => false
    | .boolean _ x, .boolean _ y => x == y
    | .wordC _ x, .wordC _ y => x == y
    | .rangeC _ x y, .rangeC _ x2 y2 => pyEqF n x x2 && pyEqF n y y2
    | .conversion _ t v, .conversion _ t2 v2 => t == t2 && pyEqF n v v2
    | .wordFunction _ f v s, .wordFunction _ f2 v2 s2 =>
        f == f2 && pyEqF n v v2 && pyEqF n s s2
    | .countE _ v, .countE _ v2 => pyEqF n v v2
    | .nextE _ v, .nextE _ v2 => pyEqF n v v2
    | .initE _ v, .initE _ v2 => pyEqF n v v2
    | .caseE _ x, .caseE _ y => pyEqPairsF n x y
    | .subscript _ i, .subscript _ i2 => pyEqF n i i2
    | .bitSelection _ x y, .bitSelection _ x2 y2 =>
        pyEqF n x x2 && pyEqF n y y2
    | .arrayAccess _ x xs, .arrayAccess _ y ys =>
        pyEqF n x y && pyEqListF n xs ys
    | .setE _ xs, .setE _ ys => pyElemF n xs ys && pyElemF n ys xs
    | .notE _ v, .notE _ v2 => pyEqF n v v2
    | .concat _ l r, .concat _ l2 r2 => pyEqF n l l2 && pyEqF n r r2
    | .minusE _ v, .minusE _ v2 => pyEqF n v v2
    | .mult _ l r, .mult _ l2 r2 =>
        (pyEqF n l l2 && pyEqF n r r2) || (pyEqF n l r2 && pyEqF n r l2)
    | .div _ l r, .div _ l2 r2 => pyEqF n l l2 && pyEqF n r r2
    | .modE _ l r, .modE _ l2 r2 => pyEqF n l l2 && pyEqF n r r2
    | .add _ l r, .add _ l2 r2 =>
        (pyEqF n l l2 && pyEqF n r r2) || (pyEqF n l r2 && pyEqF n r l2)
    | .sub _ l r, .sub _ l2 r2 => pyEqF n l l2 && pyEqF n r r2
    | .shiftL _ l r, .shiftL _ l2 r2 => pyEqF n l l2 && pyEqF n r r2
    | .shiftR _ l r, .shiftR _ l2 r2 => pyEqF n l l2 && pyEqF n r r2
    | .unionE _ l r, .unionE _ l2 r2 =>
        (pyEqF n l l2 && pyEqF n r r2) || (pyEqF n l r2 && pyEqF n r l2)
    | .inE _ l r, .inE _ l2 r2 => pyEqF n l l2 && pyEqF n r r2
    | .eq _ l r, .eq _ l2 r2 =>
        (pyEqF n l l2 && pyEqF n r r2) || (pyEqF n l r2 && pyEqF n r l2)
    | .neq _ l r, .neq _ l2 r2 =>
        ((!pyEqF n l l2) || (!pyEqF n r r2)) &&
        ((!pyEqF n l r2) || (!pyEqF n r l2))
    | .lt _ l r, .lt _ l2 r2 => pyEqF n l l2 && pyEqF n r r2
    | .gt _ l r, .gt _ l2 r2 => pyEqF n l l2 && pyEqF n r r2
    | .le _ l r, .le _ l2 r2 => pyEqF n l l2 && pyEqF n r r2
    | .ge _ l r, .ge _ l2 r2 => pyEqF n l l2 && pyEqF n r r2
    | .andE _ l r, .andE _ l2 r2 =>
        (pyEqF n l l2 && pyEqF n r r2) || (pyEqF n l r2 && pyEqF n r l2)
    | .orE _ l r, .orE _ l2 r2 =>
        (pyEqF n l l2 && pyEqF n r r2) || (pyEqF n l r2 && pyEqF n r l2)
    | .xorE _ l r, .xorE _ l2 r2 =>
        (pyEqF n l l2 && pyEqF n r r2) || (pyEqF n l r2 && pyEqF n r l2)
    | .xnorE _ l r, .xnorE _ l2 r2 =>
        (pyEqF n l l2 && pyEqF n r r2) || (pyEqF n l r2 && pyEqF n r l2)
    | .ite _ c l r, .ite _ c2 l2 r2 =>
        pyEqF n c c2 && pyEqF n l l2 && pyEqF n r r2
    | .iffE _ l r, .iffE _ l2 r2 =>
        (pyEqF n l l2 && pyEqF n r r2) || (pyEqF n l r2 && pyEqF n r l2)
    | .implies _ l r, .implies _ l2 r2 => pyEqF n l l2 && pyEqF n r r2
    | _, _ => false

/-- Python list equality: same length, element-wise `==`. -/
def pyEqListF : Nat → ExprList → ExprList → Bool
  | 0, _, _ => false
  | n + 1, xs, ys =>
    match xs, ys with
    | .nil, .nil => true
    | .cons h t, .cons h2 t2 => pyEqF n h h2 && pyEqListF n t t2
    | _, _ => false

/-- `OrderedDict` equality as used by `Case.equals`: order-sensitive pairwise
comparison of the (condition, result) entries. -/
def pyEqPairsF : Nat → PairList → PairList → Bool
  | 0, _, _ => false
  | n + 1, xs, ys =>
    match xs, ys with
    | .nil, .nil => true
    | .cons c b t, .cons c2 b2 t2 =>
        pyEqF n c c2 && pyEqF n b b2 && pyEqPairsF n t t2
    | _, _ => false

/-- Containment of every element of the first list in the second, modelling
one inclusion of the `frozenset` comparison in `Set.equals`. -/
def pyElemF : Nat → ExprList → ExprList → Bool
  | 0, _, _ => false
  | n + 1, xs, ys =>
    match xs with
    | .nil => true
    | .cons h t => pyMemF n h ys && pyElemF n t ys

def pyMemF : Nat → Expr → ExprList → Bool
  | 0, _, _ => false
  | n + 1, x, ys =>
    match ys with
    | .nil => false
    | .cons h t => pyEqF n x h || pyMemF n x t

end

/-- `a.equals(b)` with a fuel that always suffices (the summed node count of
the two arguments strictly decreases along every recursive call, so the
recursion depth never exceeds it). -/
def pyEq (a b : Expr) : Bool :=
  pyEqF (esize a + esize b) a b

def pyEqList (xs ys : ExprList) : Bool :=
  pyEqListF (elsize xs + elsize ys) xs ys

-- ---------------------------------------------------------------------------
-- Leaf parsers (`parser.py`): identifiers, integer numbers, boolean, word
-- and range constants.
-- ---------------------------------------------------------------------------

/-- `identifier = Word(alphas + "_", alphanums + "_$#-")` with the
`Identifier` parse action. -/
def pIdent (cs : List Char) : Option (Expr × List Char) :=
  match pWordOf isAlphaU isIdentBody cs with
  | some (s, rest) => some (.identifier none s, rest)
  | none => none

def pDigits (cs : List Char) : Option (Nat × List Char) :=
  match cs with
  | c :: rest =>
      if c.isDigit then
        some (digitsToNat (c :: rest.takeWhile Char.isDigit),
              rest.dropWhile Char.isDigit)
      else none
  | [] => none

/-- `_integer_number = Combine(Optional("-") + Word(nums))` with the `int`
parse action: the sign must be adjacent to the digits, and the result is a
plain Python `int` (modelled by `intv`, which carries no `source`). -/
def pIntLit (cs : List Char) : Option (Expr × List Char) :=
  match skipWs cs with
  | '-' :: rest =>
      match pDigits rest with
      | some (v, cs2) => some (.intv (-(v : Int)), cs2)
      | none => none
  | cs2 =>
      match pDigits cs2 with
      | some (v, cs2b) => some (.intv (v : Int), cs2b)
      | none => none

/-- `_boolean_constant = oneOf("TRUE FALSE")` with the `Boolean` action. -/
def pBooleanC (cs : List Char) : Option (Expr × List Char) :=
  match pLits ["TRUE", "FALSE"] cs with
  | some (s, rest) => some (.boolean none s, rest)
  | none => none

/-- `_word_constant`: `Combine(Literal("0") + Optional(u|s) + base
+ Optional(width) + "_" + value)` — all parts adjacent, the combined text is
stored as the single `value` of the `Word` node. -/
def pWordConst (cs : List Char) : Option (Expr × List Char) :=
  match skipWs cs with
  | '0' :: rest =>
      let signRest : List Char × List Char :=
        match rest with
        | c :: r => if c == 'u' || c == 's' then ([c], r) else ([], rest)
        | [] => ([], rest)
      match signRest.2 with
      | b :: rest2 =>
          if isWordBase b then
            let width := rest2.takeWhile Char.isDigit
            match rest2.dropWhile Char.isDigit with
            | '_' :: rest4 =>
                match rest4 with
                | v :: _ =>
                    if isHexDigit v then
                      let vchar := fun c => isHexDigit c || c == '_'
                      some (.wordC none
                              (String.mk ('0' :: signRest.1 ++ b :: width
                                          ++ '_' :: rest4.takeWhile vchar)),
                            rest4.dropWhile vchar)
                    else none
                | [] => none
            | _ => none
          else none
      | [] => none
  | _ => none

/-- `constant = _word_constant | _integer_constant | _boolean_constant
| _symbolic_constant` (first-match choice, range constants commented out in
the source). -/
def pConstant (cs : List Char) : Option (Expr × List Char) :=
  match pWordConst cs with
  | some r => some r
  | none =>
    match pIntLit cs with
    | some r => some r
    | none =>
      match pBooleanC cs with
      | some r => some r
      | none => pIdent cs

/-- `_range_constant = _integer_number + Suppress("..") + _integer_number`
with the `Range` action. -/
def pRangeConst (cs : List Char) : Option (Expr × List Char) :=
  match pIntLit cs with
  | none => none
  | some (a, cs2) =>
    match pLitR ".." cs2 with
    | none => none
    | some (_, cs3) =>
      match pIntLit cs3 with
      | none => none
      | some (b, cs4) => some (.rangeC none a b, cs4)

-- ---------------------------------------------------------------------------
-- Binary-operator tables (`_otc` in `_reduce_list_to_expr` and the `reduce`
-- parse actions).  Longer symbols are tried before symbols they are a prefix
-- of, as pyparsing `oneOf` arranges.
-- ---------------------------------------------------------------------------

def tryOps (ops : List (String × (Expr → Expr → Expr))) (cs : List Char) :
    Option ((Expr → Expr → Expr) × List Char) :=
  match ops with
  | [] => none
  | (s, mk) :: rest =>
    match pLitR s cs with
    | some (_, cs2) => some (mk, cs2)
    | none => tryOps rest cs

def multOps : List (String × (Expr → Expr → Expr)) :=
  [("*", fun l r => .mult none l r), ("/", fun l r => .div none l r),
   ("mod", fun l r => .modE none l r)]

def addOps : List (String × (Expr → Expr → Expr)) :=
  [("+", fun l r => .add none l r), ("-", fun l r => .sub none l r)]

def shiftOps : List (String × (Expr → Expr → Expr)) :=
  [("<<", fun l r => .shiftL none l r), (">>", fun l r => .shiftR none l r)]

def compOps : List (String × (Expr → Expr → Expr)) :=
  [("<=", fun l r => .le none l r), (">=", fun l r => .ge none l r),
   ("!=", fun l r => .neq none l r), ("=", fun l r => .eq none l r),
   ("<", fun l r => .lt none l r), (">", fun l r => .gt none l r)]

def orOps : List (String × (Expr → Expr → Expr)) :=
  [("|", fun l r => .orE none l r), ("xor", fun l r => .xorE none l r),
   ("xnor", fun l r => .xnorE none l r)]

def convNames : List String := ["word1", "bool", "toint", "signed", "unsigned"]

/-- `OrderedDict` insertion: an existing (hash/`__eq__`) equal key keeps its
position and original key object, only the value is replaced; a new key is
appended. -/
def odPairInsert : PairList → Expr → Expr → PairList
  | .nil, k, v => .cons k v .nil
  | .cons k0 v0 t, k, v =>
      if pyEq k0 k then .cons k0 v t else .cons k0 v0 (odPairInsert t k v)

-- ---------------------------------------------------------------------------
-- The expression grammar, one fueled parser per precedence level (`_implies`
-- down to `_base`).  Every `ZeroOrMore` iteration that fails consumes
-- nothing; every chain folds with `Op(accumulated, next)` exactly as
-- `_reduce_list_to_expr` / the `reduce` parse actions do — including the
-- swapped fold `reduce(lambda e, n: Implies(n, e), ...)` of `_implies`.
-- ---------------------------------------------------------------------------

mutual

/-- `_implies <<= _iff + ZeroOrMore("->" + _implies)` with parse action
`reduce(lambda e, n: Implies(n, e), t[0:1] + t[2::2])`: note that the lambda
builds `Implies(next, accumulated)`, i.e. the operands swapped. -/
def pImplies : Nat → List Char → Option (Expr × List Char)
  | 0, _ => none
  | n + 1, cs =>
    match pIff n cs with
    | none => none
    | some (x, cs2) => impliesLoop n x cs2

def impliesLoop : Nat → Expr → List Char → Option (Expr × List Char)
  | 0, _, _ => none
  | n + 1, acc, cs =>
    match pLitR "->" cs with
    | none => some (acc, cs)
    | some (_, cs2) =>
      match pImplies n cs2 with
      | none => some (acc, cs)
      | some (r, cs3) => impliesLoop n (.implies none r acc) cs3

/-- `_iff = _ite + ZeroOrMore("<->" + _ite)`, left fold `Iff(e, n)`. -/
def pIff : Nat → List Char → Option (Expr × List Char)
  | 0, _ => none
  | n + 1, cs =>
    match pIte n cs with
    | none => none
    | some (x, cs2) => iffLoop n x cs2

def iffLoop : Nat → Expr → List Char → Option (Expr × List Char)
  | 0, _, _ => none
  | n + 1, acc, cs =>
    match pLitR "<->" cs with
    | none => some (acc, cs)
    | some (_, cs2) =>
      match pIte n cs2 with
      | none => some (acc, cs)
      | some (r, cs3) => iffLoop n (.iffE none acc r) cs3

/-- `_ite <<= _or + Optional("?" + _ite + ":" + _ite)`; a failure anywhere
inside the optional group resets to the position before `?`. -/
def pIte : Nat → List Char → Option (Expr × List Char)
  | 0, _ => none
  | n + 1, cs =>
    match pOrLvl n cs with
    | none => none
    | some (c, cs2) =>
      match pLitR "?" cs2 with
      | none => some (c, cs2)
      | some (_, cs3) =>
        match pIte n cs3 with
        | none => some (c, cs2)
        | some (l, cs4) =>
          match pLitR ":" cs4 with
          | none => some (c, cs2)
          | some (_, cs5) =>
            match pIte n cs5 with
            | none => some (c, cs2)
            | some (r, cs6) => some (.ite none c l r, cs6)

/-- `_or = _and + ZeroOrMore(oneOf("| xor xnor") + _and)`. -/
def pOrLvl : Nat → List Char → Option (Expr × List Char)
  | 0, _ => none
  | n + 1, cs =>
    match pAndLvl n cs with
    | none => none
    | some (x, cs2) => orLoop n x cs2

def orLoop : Nat → Expr → List Char → Option (Expr × List Char)
  | 0, _, _ => none
  | n + 1, acc, cs =>
    match tryOps orOps cs with
    | none => some (acc, cs)
    | some (mk, cs2) =>
      match pAndLvl n cs2 with
      | none => some (acc, cs)
      | some (r, cs3) => orLoop n (mk acc r) cs3

/-- `_and = _comparison + ZeroOrMore("&" + _comparison)`. -/
def pAndLvl : Nat → List Char → Option (Expr × List Char)
  | 0, _ => none
  | n + 1, cs =>
    match pCompLvl n cs with
    | none => none
    | some (x, cs2) => andLoop n x cs2

def andLoop : Nat → Expr → List Char → Option (Expr × List Char)
  | 0, _, _ => none
  | n + 1, acc, cs =>
    match pLitR "&" cs with
    | none => some (acc, cs)
    | some (_, cs2) =>
      match pCompLvl n cs2 with
      | none => some (acc, cs)
      | some (r, cs3) => andLoop n (.andE none acc r) cs3

/-- `_comparison = _in + ZeroOrMore(oneOf("= != < > <= >=") + _in)`. -/
def pCompLvl : Nat → List Char → Option (Expr × List Char)
  | 0, _ => none
  | n + 1, cs =>
    match pInLvl n cs with
    | none => none
    | some (x, cs2) => compLoop n x cs2

def compLoop : Nat → Expr → List Char → Option (Expr × List Char)
  | 0, _, _ => none
  | n + 1, acc, cs =>
    match tryOps compOps cs with
    | none => some (acc, cs)
    | some (mk, cs2) =>
      match pInLvl n cs2 with
      | none => some (acc, cs)
      | some (r, cs3) => compLoop n (mk acc r) cs3

/-- `_in = _union + ZeroOrMore("in" + _union)`. -/
def pInLvl : Nat → List Char → Option (Expr × List Char)
  | 0, _ => none
  | n + 1, cs =>
    match pUnionLvl n cs with
    | none => none
    | some (x, cs2) => inLoop n x cs2

def inLoop : Nat → Expr → List Char → Option (Expr × List Char)
  | 0, _, _ => none
  | n + 1, acc, cs =>
    match pLitR "in" cs with
    | none => some (acc, cs)
    | some (_, cs2) =>
      match pUnionLvl n cs2 with
      | none => some (acc, cs)
      | some (r, cs3) => inLoop n (.inE none acc r) cs3

/-- `_union = _set + ZeroOrMore("union" + _set)`. -/
def pUnionLvl : Nat → List Char → Option (Expr × List Char)
  | 0, _ => none
  | n + 1, cs =>
    match pSetLvl n cs with
    | none => none
    | some (x, cs2) => unionLoop n x cs2

def unionLoop : Nat → Expr → List Char → Option (Expr × List Char)
  | 0, _, _ => none
  | n + 1, acc, cs =>
    match pLitR "union" cs with
    | none => some (acc, cs)
    | some (_, cs2) =>
      match pSetLvl n cs2 with
      | none => some (acc, cs)
      | some (r, cs3) => unionLoop n (.unionE none acc r) cs3

/-- `_set = _range_constant | _shift | _set_set` (first-match choice). -/
def pSetLvl : Nat → List Char → Option (Expr × List Char)
  | 0, _ => none
  | n + 1, cs =>
    match pRangeConst cs with
    | some r => some r
    | none =>
      match pShiftLvl n cs with
      | some r => some r
      | none => pSetSetE n cs

/-- `_set_set = Suppress("{") + delimitedList(_basic_expr) + Suppress("}")`
with the `Set` action. -/
def pSetSetE : Nat → List Char → Option (Expr × List Char)
  | 0, _ => none
  | n + 1, cs =>
    match pLitR "\x7b" cs with
    | none => none
    | some (_, cs2) =>
      match pBasicList n cs2 with
      | none => none
      | some (els, cs3) =>
        match pLitR "\x7d" cs3 with
        | none => none
        | some (_, cs4) => some (.setE none els, cs4)

/-- `delimitedList(_basic_expr)`: one or more `_basic_expr` separated by
commas; a comma not followed by an expression is left unconsumed. -/
def pBasicList : Nat → List Char → Option (ExprList × List Char)
  | 0, _ => none
  | n + 1, cs =>
    match pImplies n cs with
    | none => none
    | some (e, cs2) =>
      match pLitR "," cs2 with
      | none => some (.cons e .nil, cs2)
      | some (_, cs3) =>
        match pBasicList n cs3 with
        | none => some (.cons e .nil, cs2)
        | some (t, cs4) => some (.cons e t, cs4)

/-- `_shift = _add + ZeroOrMore(oneOf("<< >>") + _add)`. -/
def pShiftLvl : Nat → List Char → Option (Expr × List Char)
  | 0, _ => none
  | n + 1, cs =>
    match pAddLvl n cs with
    | none => none
    | some (x, cs2) => shiftLoop n x cs2

def shiftLoop : Nat → Expr → List Char → Option (Expr × List Char)
  | 0, _, _ => none
  | n + 1, acc, cs =>
    match tryOps shiftOps cs with
    | none => some (acc, cs)
    | some (mk, cs2) =>
      match pAddLvl n cs2 with
      | none => some (acc, cs)
      | some (r, cs3) => shiftLoop n (mk acc r) cs3

/-- `_add = _mult + ZeroOrMore(oneOf("+ -") + _mult)`. -/
def pAddLvl : Nat → List Char → Option (Expr × List Char)
  | 0, _ => none
  | n + 1, cs =>
    match pMultLvl n cs with
    | none => none
    | some (x, cs2) => addLoop n x cs2

def addLoop : Nat → Expr → List Char → Option (Expr × List Char)
  | 0, _, _ => none
  | n + 1, acc, cs =>
    match tryOps addOps cs with
    | none => some (acc, cs)
    | some (mk, cs2) =>
      match pMultLvl n cs2 with
      | none => some (acc, cs)
      | some (r, cs3) => addLoop n (mk acc r) cs3

/-- `_mult = _minus + ZeroOrMore(oneOf("* / mod") + _minus)`. -/
def pMultLvl : Nat → List Char → Option (Expr × List Char)
  | 0, _ => none
  | n + 1, cs =>
    match pMinusLvl n cs with
    | none => none
    | some (x, cs2) => multLoop n x cs2

def multLoop : Nat → Expr → List Char → Option (Expr × List Char)
  | 0, _, _ => none
  | n + 1, acc, cs =>
    match tryOps multOps cs with
    | none => some (acc, cs)
    | some (mk, cs2) =>
      match pMinusLvl n cs2 with
      | none => some (acc, cs)
      | some (r, cs3) => multLoop n (mk acc r) cs3

/-- `_minus = ZeroOrMore("-") + _concat`, wrapping one `Minus` per matched
dash; once a dash is consumed the rest must parse. -/
def pMinusLvl : Nat → List Char → Option (Expr × List Char)
  | 0, _ => none
  | n + 1, cs =>
    match pLitR "-" cs with
    | some (_, cs2) =>
      match pMinusLvl n cs2 with
      | some (e, cs3) => some (.minusE none e, cs3)
      | none => none
    | none => pConcatLvl n cs

/-- `_concat = _not + ZeroOrMore(Suppress("::") + _not)`, fold `Concat(e, n)`. -/
def pConcatLvl : Nat → List Char → Option (Expr × List Char)
  | 0, _ => none
  | n + 1, cs =>
    match pNotLvl n cs with
    | none => none
    | some (x, cs2) => concatLoop n x cs2

def concatLoop : Nat → Expr → List Char → Option (Expr × List Char)
  | 0, _, _ => none
  | n + 1, acc, cs =>
    match pLitR "::" cs with
    | none => some (acc, cs)
    | some (_, cs2) =>
      match pNotLvl n cs2 with
      | none => some (acc, cs)
      | some (r, cs3) => concatLoop n (.concat none acc r) cs3

/-- `_not = ZeroOrMore("!") + _array`, wrapping one `Not` per matched bang. -/
def pNotLvl : Nat → List Char → Option (Expr × List Char)
  | 0, _ => none
  | n + 1, cs =>
    match pLitR "!" cs with
    | some (_, cs2) =>
      match pNotLvl n cs2 with
      | some (e, cs3) => some (.notE none e, cs3)
      | none => none
    | none => pArrayLvl n cs

/-- `_array = _base + _ap` with action
`t[0] if len(t) <= 1 else ArrayAccess(t[0], t[1:])`. -/
def pArrayLvl : Nat → List Char → Option (Expr × List Char)
  | 0, _ => none
  | n + 1, cs =>
    match pBaseLvl n cs with
    | none => none
    | some (b, cs2) =>
      match apLoop n cs2 with
      | none => none
      | some (accs, cs3) =>
        match accs with
        | .nil => some (b, cs3)
        | _ => some (.arrayAccess none b accs, cs3)

/-- `_ap <<= Optional(_array_subscript + _ap | _word_bit_selection + _ap)`. -/
def apLoop : Nat → List Char → Option (ExprList × List Char)
  | 0, _ => none
  | n + 1, cs =>
    match pSubscriptE n cs with
    | some (s, cs2) =>
      match apLoop n cs2 with
      | none => none
      | some (t, cs3) => some (.cons s t, cs3)
    | none =>
      match pBitSelE n cs with
      | some (s, cs2) =>
        match apLoop n cs2 with
        | none => none
        | some (t, cs3) => some (.cons s t, cs3)
      | none => some (.nil, cs)

/-- `_array_subscript = Suppress("[") + _basic_expr + Suppress("]")`. -/
def pSubscriptE : Nat → List Char → Option (Expr × List Char)
  | 0, _ => none
  | n + 1, cs =>
    match pLitR "[" cs with
    | none => none
    | some (_, cs2) =>
      match pImplies n cs2 with
      | none => none
      | some (e, cs3) =>
        match pLitR "]" cs3 with
        | none => none
        | some (_, cs4) => some (.subscript none e, cs4)

/-- `_word_bit_selection = Suppress("[") + _basic_expr + Suppress(":")
+ _basic_expr + Suppress("]")`. -/
def pBitSelE : Nat → List Char → Option (Expr × List Char)
  | 0, _ => none
  | n + 1, cs =>
    match pLitR "[" cs with
    | none => none
    | some (_, cs2) =>
      match pImplies n cs2 with
      | none => none
      | some (a, cs3) =>
        match pLitR ":" cs3 with
        | none => none
        | some (_, cs4) =>
          match pImplies n cs4 with
          | none => none
          | some (b, cs5) =>
            match pLitR "]" cs5 with
            | none => none
            | some (_, cs6) => some (.bitSelection none a b, cs6)

/-- `_base = _complex_identifier ^ (conversion | word_function | count | next
| parenthesized | case | constant)`: pyparsing `^` keeps the longest match,
ties going to the first-listed alternative. -/
def pBaseLvl : Nat → List Char → Option (Expr × List Char)
  | 0, _ => none
  | n + 1, cs =>
    match pComplexIdE n cs, pBaseAlts n cs with
    | some (ra, csa), some (rb, csb) =>
        if csb.length < csa.length then some (rb, csb) else some (ra, csa)
    | some r, none => some r
    | none, some r => some r
    | none, none => none

def pBaseAlts : Nat → List Char → Option (Expr × List Char)
  | 0, _ => none
  | n + 1, cs =>
    match pConversionE n cs with
    | some r => some r
    | none =>
      match pWordFuncE n cs with
      | some r => some r
      | none =>
        match pCountE n cs with
        | some r => some r
        | none =>
          match pNextE n cs with
          | some r => some r
          | none =>
            match pParenE n cs with
            | some r => some r
            | none =>
              match pCaseE n cs with
              | some r => some r
              | none => pConstant cs

/-- `_complex_identifier = (FollowedBy("self") + Literal("self") + _cip)
| (identifier + _cip)`, with the `ComplexIdentifier` action keeping the raw
token list (literal `"."`, `"self"`, `"["`, `"]"` strings included). -/
def pComplexIdE : Nat → List Char → Option (Expr × List Char)
  | 0, _ => none
  | n + 1, cs =>
    match pLitR "self" cs with
    | some (_, cs2) =>
      match cipLoop n cs2 with
      | none => none
      | some (toks, cs3) =>
          some (.complexId none (.cons (.strv "self") toks), cs3)
    | none =>
      match pIdent cs with
      | some (idE, cs2) =>
        match cipLoop n cs2 with
        | none => none
        | some (toks, cs3) => some (.complexId none (.cons idE toks), cs3)
      | none => none

/-- `_cip <<= Optional("." "self" _cip | "." identifier _cip
| "[" expr "]" _cip)`.  Since the leading `"."` literal is deterministic, the
first two alternatives are merged: after `"."`, try `self` first, then a
general identifier. -/
def cipLoop : Nat → List Char → Option (ExprList × List Char)
  | 0, _ => none
  | n + 1, cs =>
    match pLitR "." cs with
    | some (_, cs2) =>
      match pLitR "self" cs2 with
      | some (_, cs3) =>
        match cipLoop n cs3 with
        | none => none
        | some (t, cs4) =>
            some (.cons (.strv ".") (.cons (.strv "self") t), cs4)
      | none =>
        match pIdent cs2 with
        | some (idE, cs3) =>
          match cipLoop n cs3 with
          | none => none
          | some (t, cs4) => some (.cons (.strv ".") (.cons idE t), cs4)
        | none => some (.nil, cs)
    | none =>
      match pLitR "[" cs with
      | some (_, cs2) =>
        match pImplies n cs2 with
        | none => some (.nil, cs)
        | some (e, cs3) =>
          match pLitR "]" cs3 with
          | none => some (.nil, cs)
          | some (_, cs4) =>
            match cipLoop n cs4 with
            | none => none
            | some (t, cs5) =>
                some (.cons (.strv "[")
                        (.cons e (.cons (.strv "]") t)), cs5)
      | none => some (.nil, cs)

/-- `_conversion`: one of the five conversion keywords applied to a
parenthesized `_basic_expr`, action `Conversion(t[0], t[1])`. -/
def pConversionE : Nat → List Char → Option (Expr × List Char)
  | 0, _ => none
  | n + 1, cs =>
    match pLits convNames cs with
    | none => none
    | some (name, cs2) =>
      match pLitR "(" cs2 with
      | none => none
      | some (_, cs3) =>
        match pImplies n cs3 with
        | none => none
        | some (e, cs4) =>
          match pLitR ")" cs4 with
          | none => none
          | some (_, cs5) => some (.conversion none name e, cs5)

/-- `_word_function`: `extend`/`resize` applied to two arguments.  The comma
between the arguments is an unsuppressed token, so the action
`WordFunction(t[0], t[1], t[2])` stores the literal `","` as the `size`. -/
def pWordFuncE : Nat → List Char → Option (Expr × List Char)
  | 0, _ => none
  | n + 1, cs =>
    match pLits ["extend", "resize"] cs with
    | none => none
    | some (name, cs2) =>
      match pLitR "(" cs2 with
      | none => none
      | some (_, cs3) =>
        match pImplies n cs3 with
        | none => none
        | some (v, cs4) =>
          match pLitR "," cs4 with
          | none => none
          | some (_, cs5) =>
            match pImplies n cs5 with
            | none => none
            | some (_, cs6) =>
              match pLitR ")" cs6 with
              | none => none
              | some (_, cs7) =>
                  some (.wordFunction none name v (.strv ","), cs7)

/-- `_count`: `count(` delimited list `)`; the action `Count(t[1])` keeps only
the first parsed argument. -/
def pCountE : Nat → List Char → Option (Expr × List Char)
  | 0, _ => none
  | n + 1, cs =>
    match pLitR "count" cs with
    | none => none
    | some (_, cs2) =>
      match pLitR "(" cs2 with
      | none => none
      | some (_, cs3) =>
        match pBasicList n cs3 with
        | none => none
        | some (els, cs4) =>
          match pLitR ")" cs4 with
          | none => none
          | some (_, cs5) =>
            match els with
            | .cons h _ => some (.countE none h, cs5)
            | .nil => none

/-- `_next = Literal("next") + Suppress("(") + _basic_expr + Suppress(")")`. -/
def pNextE : Nat → List Char → Option (Expr × List Char)
  | 0, _ => none
  | n + 1, cs =>
    match pLitR "next" cs with
    | none => none
    | some (_, cs2) =>
      match pLitR "(" cs2 with
      | none => none
      | some (_, cs3) =>
        match pImplies n cs3 with
        | none => none
        | some (e, cs4) =>
          match pLitR ")" cs4 with
          | none => none
          | some (_, cs5) => some (.nextE none e, cs5)

/-- `Suppress("(") + _basic_expr + Suppress(")")`. -/
def pParenE : Nat → List Char → Option (Expr × List Char)
  | 0, _ => none
  | n + 1, cs =>
    match pLitR "(" cs with
    | none => none
    | some (_, cs2) =>
      match pImplies n cs2 with
      | none => none
      | some (e, cs3) =>
        match pLitR ")" cs3 with
        | none => none
        | some (_, cs4) => some (e, cs4)

/-- `_case = Suppress("case") + _case_body + Suppress("esac")`; the body is
one or more `cond : result ;` pairs assembled into an ordered mapping
(`OrderedDict(zip(...))`, duplicate conditions overwrite in place). -/
def pCaseE : Nat → List Char → Option (Expr × List Char)
  | 0, _ => none
  | n + 1, cs =>
    match pLitR "case" cs with
    | none => none
    | some (_, cs2) =>
      match pCasePair n cs2 with
      | none => none
      | some (k, v, cs3) =>
        match caseBodyLoop n (odPairInsert .nil k v) cs3 with
        | none => none
        | some (prs, cs4) =>
          match pLitR "esac" cs4 with
          | none => none
          | some (_, cs5) => some (.caseE none prs, cs5)

def pCasePair : Nat → List Char → Option (Expr × Expr × List Char)
  | 0, _ => none
  | n + 1, cs =>
    match pImplies n cs with
    | none => none
    | some (k, cs2) =>
      match pLitR ":" cs2 with
      | none => none
      | some (_, cs3) =>
        match pImplies n cs3 with
        | none => none
        | some (v, cs4) =>
          match pLitR ";" cs4 with
          | none => none
          | some (_, cs5) => some (k, v, cs5)

def caseBodyLoop : Nat → PairList → List Char → Option (PairList × List Char)
  | 0, _, _ => none
  | n + 1, acc, cs =>
    match pCasePair n cs with
    | none => some (acc, cs)
    | some (k, v, cs2) => caseBodyLoop n (odPairInsert acc k v) cs2

end

/-- `_basic_expr <<= _implies` — the expression entry point
(`simple_expression` and `next_expression` are the same parser). -/
def pBasicExpr (n : Nat) : List Char → Option (Expr × List Char) :=
  pImplies n

-- ---------------------------------------------------------------------------
-- Type specifiers (`model.py` classes `TBoolean` … `TModule` and the
-- `_simple_type_specifier` / `_module_type_specifier` grammar).
-- ---------------------------------------------------------------------------

inductive TypeV where
  | tBoolean (src : Option String)
  | tWord (src : Option String) (sign : Option String) (size : Expr)
  | tEnum (src : Option String) (values : ExprList)
  | tRange (src : Option String) (start stop : Expr)
  | tArray (src : Option String) (start stop : Expr) (elem : TypeV)
  | tModule (src : Option String) (process : Bool) (modulename : Expr)
      (args : ExprList)

mutual

/-- `_simple_type_specifier <<= _boolean_type | _word_type | _enum_type
| _array_type | _range_type` (first-match choice, in source order). -/
def pSimpleT : Nat → List Char → Option (TypeV × List Char)
  | 0, _ => none
  | n + 1, cs =>
    match pLitR "boolean" cs with
    | some (_, cs2) => some (.tBoolean none, cs2)
    | none =>
      match pWordT n cs with
      | some r => some r
      | none =>
        match pEnumT n cs with
        | some r => some r
        | none =>
          match pArrayT n cs with
          | some r => some r
          | none => pRangeT n cs

/-- `_word_type = Optional(unsigned|signed) + "word" + Suppress("[")
+ _basic_expr + Suppress("]")`. -/
def pWordT : Nat → List Char → Option (TypeV × List Char)
  | 0, _ => none
  | n + 1, cs =>
    let signCs : Option String × List Char :=
      match pLits ["unsigned", "signed"] cs with
      | some (s, cs2) => (some s, cs2)
      | none => (none, cs)
    match pLitR "word" signCs.2 with
    | none => none
    | some (_, cs2) =>
      match pLitR "[" cs2 with
      | none => none
      | some (_, cs3) =>
        match pImplies n cs3 with
        | none => none
        | some (sz, cs4) =>
          match pLitR "]" cs4 with
          | none => none
          | some (_, cs5) => some (.tWord none signCs.1 sz, cs5)

/-- `_enum_type = Suppress("{")
+ delimitedList(_integer_number | _symbolic_constant) + Suppress("}")`. -/
def pEnumT : Nat → List Char → Option (TypeV × List Char)
  | 0, _ => none
  | n + 1, cs =>
    match pLitR "\x7b" cs with
    | none => none
    | some (_, cs2) =>
      match enumValsLoop n cs2 with
      | none => none
      | some (vals, cs3) =>
        match pLitR "\x7d" cs3 with
        | none => none
        | some (_, cs4) => some (.tEnum none vals, cs4)

def enumValsLoop : Nat → List Char → Option (ExprList × List Char)
  | 0, _ => none
  | n + 1, cs =>
    match (match pIntLit cs with
           | some r => some r
           | none => pIdent cs) with
    | none => none
    | some (v, cs2) =>
      match pLitR "," cs2 with
      | none => some (.cons v .nil, cs2)
      | some (_, cs3) =>
        match enumValsLoop n cs3 with
        | none => some (.cons v .nil, cs2)
        | some (t, cs4) => some (.cons v t, cs4)

/-- `_range_type = _shift + Suppress("..") + _shift`. -/
def pRangeT : Nat → List Char → Option (TypeV × List Char)
  | 0, _ => none
  | n + 1, cs =>
    match pShiftLvl n cs with
    | none => none
    | some (a, cs2) =>
      match pLitR ".." cs2 with
      | none => none
      | some (_, cs3) =>
        match pShiftLvl n cs3 with
        | none => none
        | some (b, cs4) => some (.tRange none a b, cs4)

/-- `_array_type = Suppress("array") + _shift + Suppress("..") + _shift
+ Suppress("of") + _simple_type_specifier`. -/
def pArrayT : Nat → List Char → Option (TypeV × List Char)
  | 0, _ => none
  | n + 1, cs =>
    match pLitR "array" cs with
    | none => none
    | some (_, cs2) =>
      match pShiftLvl n cs2 with
      | none => none
      | some (a, cs3) =>
        match pLitR ".." cs3 with
        | none => none
        | some (_, cs4) =>
          match pShiftLvl n cs4 with
          | none => none
          | some (b, cs5) =>
            match pLitR "of" cs5 with
            | none => none
            | some (_, cs6) =>
              match pSimpleT n cs6 with
              | none => none
              | some (t, cs7) => some (.tArray none a b t, cs7)

end

/-- `_module_type_specifier = Optional("process") + identifier
+ Optional("(" + Optional(delimitedList(simple_expression)) + ")")`. -/
def pModuleT (n : Nat) (cs : List Char) : Option (TypeV × List Char) :=
  let procCs : Bool × List Char :=
    match pLitR "process" cs with
    | some (_, cs2) => (true, cs2)
    | none => (false, cs)
  match pIdent procCs.2 with
  | none => none
  | some (nameE, cs2) =>
    match pLitR "(" cs2 with
    | none => some (.tModule none procCs.1 nameE .nil, cs2)
    | some (_, cs3) =>
      match pBasicList n cs3 with
      | some (args, cs4) =>
        match pLitR ")" cs4 with
        | some (_, cs5) => some (.tModule none procCs.1 nameE args, cs5)
        | none => some (.tModule none procCs.1 nameE .nil, cs2)
      | none =>
        match pLitR ")" cs3 with
        | some (_, cs4) => some (.tModule none procCs.1 nameE .nil, cs4)
        | none => some (.tModule none procCs.1 nameE .nil, cs2)

/-- `type_identifier = _simple_type_specifier | _module_type_specifier`. -/
def pTypeIdent (n : Nat) (cs : List Char) : Option (TypeV × List Char) :=
  match pSimpleT n cs with
  | some r => some r
  | none => pModuleT n cs

-- ---------------------------------------------------------------------------
-- Sections (`model.py` `MappingSection` / `ListingSection` and the section
-- grammar of `parser.py`).  A mapping-section body is an ordered
-- identifier-to-value map; keys are compared like Python dict keys, i.e. by
-- hash and `__eq__`, which for identifier nodes is structural equality.
-- ---------------------------------------------------------------------------

inductive SectVal where
  | ty (t : TypeV)
  | ex (e : Expr)

/-- Ordered-dict insertion (`d[k] = v`): an existing equal key keeps its
position and key object, only the value is replaced; new keys are appended. -/
def odInsertKV : List (Expr × SectVal) → Expr → SectVal →
    List (Expr × SectVal)
  | [], k, v => [(k, v)]
  | (k0, v0) :: t, k, v =>
      if pyEq k0 k then (k0, v) :: t else (k0, v0) :: odInsertKV t k v

/-- `OrderedDict.update(other)` as used by `MappingSection.update_body`:
entries of `other` are inserted in order, later writes winning. -/
def odUpdateKV (self other : List (Expr × SectVal)) :
    List (Expr × SectVal) :=
  other.foldl (fun acc p => odInsertKV acc p.1 p.2) self

/-- `MappingSection.update_body`: `self.body.update(otherbody)`. -/
def mappingUpdateBody (self other : List (Expr × SectVal)) :
    List (Expr × SectVal) :=
  odUpdateKV self other

/-- `ListingSection.update_body`: `self.body += otherbody`. -/
def listingUpdateBody (self other : List Expr) : List Expr :=
  self ++ other

/-- A section node: `MappingSection(name, mapping, separator)` or
`ListingSection(name, listing, separator)` (the constant indentation
parameter is omitted; it only affects section rendering). -/
inductive ModSection where
  | mappingS (src : Option String) (name separator : String)
      (body : List (Expr × SectVal))
  | listingS (src : Option String) (name separator : String)
      (body : List Expr)

/-- `_var_declaration = identifier + Suppress(":") + type_identifier
+ Suppress(";")`. -/
def pVarDecl (n : Nat) (cs : List Char) :
    Option ((Expr × SectVal) × List Char) :=
  match pIdent cs with
  | none => none
  | some (idE, cs2) =>
    match pLitR ":" cs2 with
    | none => none
    | some (_, cs3) =>
      match pTypeIdent n cs3 with
      | none => none
      | some (t, cs4) =>
        match pLitR ";" cs4 with
        | none => none
        | some (_, cs5) => some ((idE, .ty t), cs5)

def varBodyLoop : Nat → List (Expr × SectVal) → List Char →
    Option (List (Expr × SectVal) × List Char)
  | 0, _, _ => none
  | n + 1, acc, cs =>
    match pVarDecl n cs with
    | none => some (acc, cs)
    | some ((k, v), cs2) => varBodyLoop n (odInsertKV acc k v) cs2

/-- `var_section = Suppress("VAR") + OneOrMore(_var_declaration)` with the
`OrderedDict` and `Variables` actions (`Variables` is a `MappingSection`
named `"VAR"` with separator `": "`). -/
def pVarSection (n : Nat) (cs : List Char) :
    Option (ModSection × List Char) :=
  match pLitR "VAR" cs with
  | none => none
  | some (_, cs2) =>
    match pVarDecl n cs2 with
    | none => none
    | some ((k, v), cs3) =>
      match varBodyLoop n (odInsertKV [] k v) cs3 with
      | none => none
      | some (body, cs4) => some (.mappingS none "VAR" ": " body, cs4)

-- ---------------------------------------------------------------------------
-- `parseAllString` (`parser.py`): parse the complete string (pyparsing
-- `parseAll=True` appends a whitespace-skipping `StringEnd`), then set the
-- `source` attribute of the result to the whole input when the result has
-- one (`hasattr(res[0], "source")`).
-- ---------------------------------------------------------------------------

/-- Set the `source` attribute of a node.  Raw Python `str` and `int` results
(`strv`, `intv`) have no `source` attribute and are returned unchanged
(`hasattr` is false for them). -/
def setSrcExpr : Expr → String → Expr
  | .strv s, _ => .strv s
  | .intv n, _ => .intv n
  | .identifier _ a, s => .identifier (some s) a
  | .complexId _ a, s => .complexId (some s) a
  | .boolean _ a, s => .boolean (some s) a
  | .wordC _ a, s => .wordC (some s) a
  | .rangeC _ a b, s => .rangeC (some s) a b
  | .conversion _ t v, s => .conversion (some s) t v
  | .wordFunction _ f v sz, s => .wordFunction (some s) f v sz
  | .countE _ v, s => .countE (some s) v
  | .nextE _ v, s => .nextE (some s) v
  | .initE _ v, s => .initE (some s) v
  | .caseE _ v, s => .caseE (some s) v
  | .subscript _ i, s => .subscript (some s) i
  | .bitSelection _ a b, s => .bitSelection (some s) a b
  | .arrayAccess _ a x, s => .arrayAccess (some s) a x
  | .setE _ a, s => .setE (some s) a
  | .notE _ v, s => .notE (some s) v
  | .concat _ l r, s => .concat (some s) l r
  | .minusE _ v, s => .minusE (some s) v
  | .mult _ l r, s => .mult (some s) l r
  | .div _ l r, s => .div (some s) l r
  | .modE _ l r, s => .modE (some s) l r
  | .add _ l r, s => .add (some s) l r
  | .sub _ l r, s => .sub (some s) l r
  | .shiftL _ l r, s => .shiftL (some s) l r
  | .shiftR _ l r, s => .shiftR (some s) l r
  | .unionE _ l r, s => .unionE (some s) l r
  | .inE _ l r, s => .inE (some s) l r
  | .eq _ l r, s => .eq (some s) l r
  | .neq _ l r, s => .neq (some s) l r
  | .lt _ l r, s => .lt (some s) l r
  | .gt _ l r, s => .gt (some s) l r
  | .le _ l r, s => .le (some s) l r
  | .ge _ l r, s => .ge (some s) l r
  | .andE _ l r, s => .andE (some s) l r
  | .orE _ l r, s => .orE (some s) l r
  | .xorE _ l r, s => .xorE (some s) l r
  | .xnorE _ l r, s => .xnorE (some s) l r
  | .ite _ c l r, s => .ite (some s) c l r
  | .iffE _ l r, s => .iffE (some s) l r
  | .implies _ l r, s => .implies (some s) l r

def setSrcSection : ModSection → String → ModSection
  | .mappingS _ n sep b, s => .mappingS (some s) n sep b
  | .listingS _ n sep b, s => .listingS (some s) n sep b

/-- `parseAllString(parser, string)`: parse the complete string
(`parseAll=True` — only trailing whitespace may remain), then set the
result's `source` to the whole input when it has a `source` attribute; on
any failure no result at all is produced. -/
def parseAllString {α : Type} (setSrc : α → String → α)
    (p : List Char → Option (α × List Char)) (s : String) : Option α :=
  match p s.data with
  | some (r, rest) => if skipWs rest = [] then some (setSrc r s) else none
  | none => none

-- ---------------------------------------------------------------------------
-- Module assembly (`_create_module` in `parser.py`): repeated sections of
-- the same name are merged with `update`, not rejected.
-- ---------------------------------------------------------------------------

/-- The raw body of a section contribution as stored in the module
namespace: an ordered mapping or an ordered listing. -/
inductive SectionBody where
  | mapping (entries : List (Expr × SectVal))
  | listing (elems : List Expr)

/-- Modelled from the spec: `pynusmv.utils.update` (the module
`pynusmv/utils.py` is not under `src/`).  Per the spec, merging two
contributions to the same section is "mapping: key-wise update, later wins;
listing: append in order"; the shapes of two contributions to the same
section kind always agree. -/
def update : SectionBody → SectionBody → SectionBody
  | .mapping m, .mapping m2 => .mapping (odUpdateKV m m2)
  | .listing l, .listing l2 => .listing (l ++ l2)
  | b, _ => b

/-- The section-merging loop of `_create_module`: `if section.name not in
namespace: namespace[section.name] = section.body else
update(namespace[section.name], section.body)` (the `NAME`/`ARGS` entries
are handled separately and omitted here). -/
def addSection (ns : List (String × SectionBody))
    (s : String × SectionBody) : List (String × SectionBody) :=
  if ns.any (fun p => p.1 == s.1) then
    ns.map (fun p => if p.1 == s.1 then (p.1, update p.2 s.2) else p)
  else ns ++ [s]

def createModuleNamespace (sections : List (String × SectionBody)) :
    List (String × SectionBody) :=
  sections.foldl addSection []

-- ---------------------------------------------------------------------------
-- Declarations (`model.py` `Declaration`): the `name` property raises
-- `AttributeError("Unknown declaration name.")` while `self._name` is falsy
-- (unset or empty); the setter assigns it, which `ModuleMetaClass.__new__`
-- does exactly once when binding the declaration into a module namespace.
-- ---------------------------------------------------------------------------

inductive PyErr where
  | attributeError (msg : String)

structure Declaration where
  declName : Option String
  declType : TypeV
  declSection : String

def unknownDeclMsg : String := "Unknown declaration name."

/-- The `Declaration.name` property getter: `if not self._name: raise
AttributeError("Unknown declaration name.")`. -/
def Declaration.getName (d : Declaration) : Except PyErr String :=
  match d.declName with
  | none => .error (.attributeError unknownDeclMsg)
  | some s =>
      if s = "" then .error (.attributeError unknownDeclMsg) else .ok s

/-- The `Declaration.name` setter, invoked exactly once by
`ModuleMetaClass.__new__` when the declaration is bound into a module
namespace under `member`. -/
def Declaration.bindName (d : Declaration) (n : String) : Declaration :=
  { d with declName := some n }

/-- The host language's generic missing-attribute diagnostic
(`AttributeError("'C' object has no attribute 'a'")`), used only to state
that the unbound-declaration error is distinguishable from it. -/
def genericAttributeAbsenceMsg (cls attr : String) : String :=
  "\x27" ++ cls ++ "\x27 object has no attribute \x27" ++ attr ++ "\x27"

-- ---------------------------------------------------------------------------
-- Frequently used concrete nodes.
-- ---------------------------------------------------------------------------

/-- The node parsed from the bare identifier text `a` (the grammar wraps a
bare identifier in a `ComplexIdentifier`). -/
def ciA : Expr := .complexId none (.cons (.identifier none "a") .nil)

def ciB : Expr := .complexId none (.cons (.identifier none "b") .nil)

def ciC : Expr := .complexId none (.cons (.identifier none "c") .nil)

def ciX : Expr := .complexId none (.cons (.identifier none "x") .nil)

/-- The top-level node produced by parsing the bare identifier text `a`
(the grammar wraps it in a `ComplexIdentifier`; `parseAllString` sets the
source).  Re-parsing the rendered text produces a second node of identical
structure but, in the program, a distinct object with a distinct
`ParseResults` body. -/
def c1Node : Expr := .complexId (some "a") (.cons (.identifier none "a") .nil)

-- ---------------------------------------------------------------------------
-- Claim theorems.
-- ---------------------------------------------------------------------------

/-- Claim C1: the claim states that for every node built purely by the
grammar, parsing the rendered text yields a node structurally equal (per
`equals`) to the original.  This fails already on the node parsed from the
bare identifier text `a`: parsing succeeds, rendering returns the cached
source verbatim, and re-parsing that text yields a node of identical
structure — but `ComplexIdentifier.equals` evaluates `self.body ==
other.body` on the two `ParseResults` bodies, which compare by object
identity (pyparsing `ParseResults` defines no `__eq__`), and the re-parsed
node is a distinct object, so `equals` is `false`.  The last conjunct is
the comparison of the original node against its re-parse: two distinct
parse events, which the `complexId` case of `pyEq` models. -/
theorem c1_roundtrip_fails_on_complex_identifier :
    parseAllString setSrcExpr (pBasicExpr 64) "a" = some c1Node
    ∧ render c1Node = "a"
    ∧ parseAllString setSrcExpr (pBasicExpr 64) (render c1Node) = some c1Node
    ∧ pyEq c1Node c1Node = false :=
  ⟨rfl, rfl, rfl, rfl⟩

/-- Claim C2: the claim lists `Neq` among the commutative operators for which
`Op(a, b).equals(Op(b, a))` must always hold.  The code's `Neq.equals`
formula is the negation of the structural comparison: with identifier
operands it is `false` both for swapped and for identical operands, while
e.g. `Mult` behaves as the claim states. -/
theorem c2_neq_equals_eval :
    pyEq (.neq none (.identifier none "a") (.identifier none "b"))
        (.neq none (.identifier none "b") (.identifier none "a")) = false
    ∧ pyEq (.neq none (.identifier none "a") (.identifier none "b"))
        (.neq none (.identifier none "a") (.identifier none "b")) = false
    ∧ pyEq (.mult none (.identifier none "a") (.identifier none "b"))
        (.mult none (.identifier none "b") (.identifier none "a")) = true
    ∧ pyEq (.eq none (.identifier none "a") (.identifier none "b"))
        (.eq none (.identifier none "b") (.identifier none "a")) = true :=
  ⟨rfl, rfl, rfl, rfl⟩

/-- Claim C3: the claim states that parsing `a -> b` yields an `Implies` node
with left operand `a` and right operand `b`, and `a -> b -> c` yields
`Implies(a, Implies(b, c))`.  The `_implies` parse action
`reduce(lambda e, n: Implies(n, e), ...)` swaps the operands: the code
yields `Implies(b, a)` and `Implies(Implies(c, b), a)` respectively. -/
theorem c3_implies_operands_swapped :
    parseAllString setSrcExpr (pBasicExpr 64) "a -> b"
      = some (.implies (some "a -> b") ciB ciA)
    ∧ parseAllString setSrcExpr (pBasicExpr 64) "a -> b -> c"
      = some (.implies (some "a -> b -> c") (.implies none ciC ciB) ciA)
    ∧ render (.implies none ciB ciA) = "b -> a" :=
  ⟨rfl, rfl, rfl⟩

/-- Claim C4: the claim states that every node type with a set verbatim
source renders exactly that source, including `Not`.  `Not.__str__` contains
`if self.source: self.source` without `return`, so a `Not` node always
renders canonically, ignoring its source (first conjunct: for every source
string and operand the source is ignored); concretely, a `Not` of `x` with
source text `!x` renders as `! x`, not `!x`, while e.g. an `Identifier` with
a set source does render it verbatim. -/
theorem c4_not_renders_canonically_despite_source :
    (∀ (s : String) (v : Expr),
        render (.notE (some s) v) = render (.notE none v))
    ∧ render (.notE (some "!x") ciX) = "! x"
    ∧ (("! x" : String) == "!x") = false
    ∧ render (.identifier (some "src text") "y") = "src text" :=
  ⟨fun _ _ => rfl, rfl, rfl, rfl⟩

/-- Claim C5: when rendering an operator node without cached source, an
operand is parenthesized iff it is itself an operator node of numerically
strictly greater precedence rank; in particular the `Mult` operand of an
`Add` is never parenthesized, the `Add` operand of a `Mult` always is, and
equal-precedence operands (e.g. a `Sub` under an `Add`, both rank 5) are
never parenthesized. -/
theorem c5_parenthesize_iff_strictly_looser :
    (∀ parent operand : Expr,
       (encloseStr parent operand = "(" ++ render operand ++ ")")
         ↔ (isOperator operand = true
            ∧ precedence parent < precedence operand))
    ∧ (∀ a b c : Expr,
        render (.add none (.mult none a b) c)
          = render (.mult none a b) ++ " + "
            ++ encloseStr (.add none (.mult none a b) c) c)
    ∧ (∀ a b c : Expr,
        render (.mult none (.add none a b) c)
          = "(" ++ render (.add none a b) ++ ")" ++ " * "
            ++ encloseStr (.mult none (.add none a b) c) c)
    ∧ (∀ a b c d : Expr,
        encloseStr (.add none a b) (.sub none c d)
          = render (.sub none c d)) := by
  refine ⟨fun parent operand => ?_, fun a b c => rfl, fun a b c => rfl,
    fun a b c d => rfl⟩
  constructor
  · intro h
    by_cases h1 : (isOperator operand
        && decide (precedence parent < precedence operand)) = true
    · simpa [Bool.and_eq_true, decide_eq_true_eq] using h1
    · exfalso
      rw [encloseStr, encWrap, if_neg] at h
      · have h3 := congrArg String.length h
        rw [String.length_append, String.length_append] at h3
        have h4 : "(".length = 1 := rfl
        have h5 : ")".length = 1 := rfl
        omega
      · simpa using h1
  · rintro ⟨h1, h2⟩
    simp [encloseStr, encWrap, h1, h2]

/-- Witness for C5 at a concrete input: an `Add` operand under a `Mult`
parent (rank 5 under rank 4) is parenthesized. -/
theorem c5_witness :
    encloseStr (.mult none ciA ciB) (.add none ciA ciB)
      = "(" ++ render (.add none ciA ciB) ++ ")" :=
  (c5_parenthesize_iff_strictly_looser.1 (.mult none ciA ciB)
    (.add none ciA ciB)).mpr ⟨rfl, by decide⟩

/-- Claim C6: merging two contributions to the same section is
order-preserving and last-write-wins on mapping keys: mapping `x` to the
boolean type and then mapping `x` to the `word[8]` type yields one entry
mapping `x` to `word[8]`; merging listing contributions yields their
concatenation; and the `_create_module` loop merges two same-named sections
into a single entry via `update` instead of rejecting them. -/
theorem c6_section_merge :
    mappingUpdateBody
        [(.identifier none "x", .ty (.tBoolean none))]
        [(.identifier none "x", .ty (.tWord none none (.intv 8)))]
      = [(.identifier none "x", .ty (.tWord none none (.intv 8)))]
    ∧ listingUpdateBody [Expr.identifier none "a"] [Expr.identifier none "b"]
        = [Expr.identifier none "a", Expr.identifier none "b"]
    ∧ (∀ (nm : String) (b1 b2 : SectionBody),
        createModuleNamespace [(nm, b1), (nm, b2)] = [(nm, update b1 b2)]) :=
  ⟨rfl, rfl, by
    intro nm b1 b2
    simp [createModuleNamespace, addSection, List.foldl]⟩

/-- Claim C7 (counterexample): parsing the word-literal text `0sd8_3`
succeeds, but the resulting `Word` node records the entire combined literal
text `0sd8_3` as its single `value`; in particular the recorded value is not
the value text `3`, and no separate base, width or sign components are
stored (the `Word` class has exactly one field). -/
theorem c7_word_components_not_recorded :
    parseAllString setSrcExpr pConstant "0sd8_3"
      = some (.wordC (some "0sd8_3") "0sd8_3")
    ∧ (("0sd8_3" : String) == "3") = false :=
  ⟨rfl, rfl⟩

/-- Claim C7 (amended): parsing `0sd8_3` with the constant grammar succeeds
and yields a word-constant node whose single recorded value is the whole
literal text `0sd8_3` (with the node's verbatim source set to the input);
base, sign, width and value text appear only inside that string. -/
theorem c7_word_constant_whole_literal :
    parseAllString setSrcExpr pConstant "0sd8_3"
      = some (.wordC (some "0sd8_3") "0sd8_3") := rfl

/-- Claim C8: every entry point run through `parseAllString` must match the
entire input: whenever the parser leaves non-whitespace trailing text, the
call yields no result at all; concretely, `VAR x: boolean` (missing the
terminating semicolon) yields no partial section node, while the complete
`VAR x: boolean;` parses to the expected one-entry mapping section. -/
theorem c8_entire_input_required :
    (∀ (p : List Char → Option (Expr × List Char)) (s : String)
       (r : Expr) (rest : List Char),
        p s.data = some (r, rest) → skipWs rest ≠ [] →
        parseAllString setSrcExpr p s = none)
    ∧ parseAllString setSrcSection (pVarSection 64) "VAR x: boolean" = none
    ∧ parseAllString setSrcSection (pVarSection 64) "VAR x: boolean;"
        = some (.mappingS (some "VAR x: boolean;") "VAR" ": "
                 [(.identifier none "x", .ty (.tBoolean none))]) := by
  refine ⟨fun p s r rest h1 h2 => ?_, rfl, rfl⟩
  rw [parseAllString, h1]
  simp [h2]

/-- Witness for C8 at a concrete input: the expression grammar matches the
prefix `a` of `a b` and leaves ` b` unconsumed, so `parseAllString` fails. -/
theorem c8_witness :
    parseAllString setSrcExpr (pBasicExpr 32) "a b" = none :=
  c8_entire_input_required.1 (pBasicExpr 32) "a b" ciA [' ', 'b'] rfl
    (by decide)

/-- Claim C9: reading the name of a `Declaration` before it has been bound
raises `AttributeError("Unknown declaration name.")`, whose message differs
from the host language's generic missing-attribute diagnostic for every
class and attribute name (so a caller can tell "used before binding" from
"genuinely missing"); after the name is assigned at binding, reading it
returns the bound name. -/
theorem c9_declaration_name_access :
    (∀ (t : TypeV) (sec : String),
        (Declaration.mk none t sec).getName
          = .error (.attributeError unknownDeclMsg))
    ∧ (∀ cls attr : String,
        (unknownDeclMsg == genericAttributeAbsenceMsg cls attr) = false)
    ∧ (∀ (d : Declaration) (n : String), n ≠ "" →
        (d.bindName n).getName = .ok n) := by
  refine ⟨fun t sec => rfl, fun cls attr => ?_, fun d n hn => ?_⟩
  · rw [beq_eq_false_iff_ne]
    intro h
    have h2 := congrArg (fun s : String => s.data.head?) h
    simp only [unknownDeclMsg, genericAttributeAbsenceMsg] at h2
    simp [String.data_append] at h2
  · rw [Declaration.bindName, Declaration.getName]
    simp [hn]

/-- Witness for C9 at a concrete input: binding the declaration to the key
`c` and reading the name back returns `c`. -/
theorem c9_witness :
    ((Declaration.mk none (.tBoolean none) "VAR").bindName "c").getName
      = .ok "c" :=
  c9_declaration_name_access.2.2 (Declaration.mk none (.tBoolean none) "VAR")
    "c" (by decide)

/-- Claim C10: the claim states that whenever `parseAllString` succeeds and
the result has a `source` attribute, the result renders back to exactly the
input string.  `parseAllString` does set `source` to the whole input (first
conjunct, on input `!x`), but the top-level `Not` node still renders
canonically as `! x`, not `!x`, because `Not.__str__` ignores `source`. -/
theorem c10_top_level_source_not_always_rendered :
    parseAllString setSrcExpr (pBasicExpr 64) "!x"
      = some (.notE (some "!x") ciX)
    ∧ render (.notE (some "!x") ciX) = "! x"
    ∧ (("! x" : String) == "!x") = false :=
  ⟨rfl, rfl, rfl⟩

end PyNuSMV
